import Mathlib

/-!
Verification of the stacker_blueprints Elasticsearch Domain blueprint
(file stacker_blueprints/elasticsearch.py).

The blueprint turns a variable set into a CloudFormation template holding
an optional security group, an optional service linked role, the
Elasticsearch domain resource, an optional DNS record, and an IAM policy.
We embed the template builder shallowly: every method of the Domain class
becomes a Lean function over an explicit Template value, and the two
TypeError raises become the error branch of Except.
-/

namespace ElasticsearchBlueprint

/-- CloudFormation intrinsic atoms used by the blueprint: plain strings,
Ref to a logical id, and GetAtt on a logical id and attribute. -/
inductive CfnAtom where
  | str (s : String)
  | ref (logicalId : String)
  | getAtt (logicalId : String) (attr : String)
deriving DecidableEq, Repr

/-- Values in the template: a single atom or a Join of atoms. -/
inductive CfnValue where
  | atom (a : CfnAtom)
  | join (sep : String) (vals : List CfnAtom)
deriving DecidableEq, Repr

def CfnValue.str (s : String) : CfnValue := CfnValue.atom (CfnAtom.str s)

def CfnValue.ref (logicalId : String) : CfnValue := CfnValue.atom (CfnAtom.ref logicalId)

def CfnValue.getAtt (logicalId : String) (attr : String) : CfnValue :=
  CfnValue.atom (CfnAtom.getAtt logicalId attr)

/-- Python dict values passed through untouched by the blueprint; only
emptiness is inspected, so an association list of strings models them. -/
abbrev Dict := List (String × String)

/-- The awacs Condition(IpAddress({SourceIp: cidr})) structure. -/
structure IpCondition where
  IpAddress : List (String × String)
deriving DecidableEq, Repr

/-- One awacs policy statement as the blueprint builds them. -/
structure Statement where
  Effect : String
  Action : List String
  Resource : List CfnValue := []
  Condition : Option IpCondition := none
  Principal : Option String := none
deriving DecidableEq, Repr

/-- An awacs Policy: a list of statements. -/
structure Policy where
  Statement : List Statement
deriving DecidableEq, Repr

/-- The EncryptionAtRestOptions sub-structure of the domain params. -/
structure EncryptionAtRestOptions where
  Enabled : Bool
  KmsKeyId : String
deriving DecidableEq, Repr

/-- The VPCOptions sub-structure of the domain params. -/
structure VPCOptions where
  SecurityGroupIds : List CfnValue
  SubnetIds : List String
deriving DecidableEq, Repr

/-- The params dict handed to elasticsearch.Domain.from_dict.  A key that
the python code never inserts is the none case; the python dict holds the
key exactly when the field is some. -/
structure DomainParams where
  ElasticsearchVersion : String
  AccessPolicies : Option Policy := none
  EncryptionAtRestOptions : Option EncryptionAtRestOptions := none
  VPCOptions : Option VPCOptions := none
  AdvancedOptions : Option Dict := none
  DomainName : Option String := none
  EBSOptions : Option Dict := none
  ElasticsearchClusterConfig : Option Dict := none
  SnapshotOptions : Option Dict := none
  Tags : Option Dict := none
deriving DecidableEq, Repr

/-- The template resources the blueprint can add, each carrying its
logical id first.  RecordType is the Type field of the route53 record. -/
inductive Resource where
  | securityGroup (title : String) (GroupDescription : String) (VpcId : String)
  | serviceLinkedRole (title : String) (AWSServiceName : String)
  | esDomain (title : String) (params : DomainParams)
  | recordSet (title : String) (HostedZoneId : String) (Comment : String)
      (Name : String) (RecordType : String) (TTL : String)
      (ResourceRecords : List CfnValue)
  | policyType (title : String) (PolicyName : String) (PolicyDocument : Policy)
      (Roles : List String)
deriving DecidableEq, Repr

def Resource.title : Resource → String
  | Resource.securityGroup t _ _ => t
  | Resource.serviceLinkedRole t _ => t
  | Resource.esDomain t _ => t
  | Resource.recordSet t _ _ _ _ _ _ => t
  | Resource.policyType t _ _ _ => t

/-- A troposphere Output: a name and a value. -/
structure TemplateOutput where
  title : String
  Value : CfnValue
deriving DecidableEq, Repr

/-- The mutable troposphere template: resources and outputs in insertion
order. -/
structure Template where
  Resources : List Resource := []
  Outputs : List TemplateOutput := []
deriving DecidableEq, Repr

def Template.add_resource (t : Template) (r : Resource) : Template :=
  { t with Resources := t.Resources ++ [r] }

def Template.add_output (t : Template) (o : TemplateOutput) : Template :=
  { t with Outputs := t.Outputs ++ [o] }

/-- The variable set of the Domain blueprint, with the defaults declared
in VARIABLES. -/
structure Variables where
  Roles : List String := []
  CreateLinkedRole : Bool := false
  InternalZoneId : String := ""
  InternalZoneName : String := ""
  InternalHostName : String := ""
  AdvancedOptions : Dict := []
  DomainName : String := ""
  EBSOptions : Dict := []
  ElasticsearchClusterConfig : Dict := []
  ElasticsearchVersion : String := "5.1"
  EncryptionAtRestKeyId : String := ""
  SnapshotOptions : Dict := []
  SecurityGroups : List String := []
  Subnets : String := ""
  Tags : Dict := []
  TrustedNetworks : List String := []
  VpcId : String := ""
deriving DecidableEq, Repr

/-- Module level logical id constants of elasticsearch.py. -/
def ES_DOMAIN : String := "ESDomain"

def DNS_RECORD : String := "ESDomainDNSRecord"

def LINKED_ROLE_NAME : String := "ESLinkedRole"

def POLICY_NAME : String := "ESDomainAccessPolicy"

def SECURITY_GROUP : String := "ESSecurityGroup"

/-- awacs constant Allow. -/
def Allow : String := "Allow"

/-- awacs constant Everybody. -/
def Everybody : String := "*"

/-- awacs constant SourceIp. -/
def SourceIp : String := "aws:SourceIp"

/-- The message of the TypeError raised by the encryption gate. -/
def encErrorMsg : String := "Encryption at rest supported for ES versions >= 5.1"

/-- The message of the TypeError raised by the subnet gate. -/
def subnetErrorMsg : String :=
  "If no security groups are passed, VpcId must be passed for security group creation."

/-- Domain.get_allowed_actions: the four rendered awacs.es actions. -/
def get_allowed_actions : List String :=
  ["es:ESHttpGet", "es:ESHttpHead", "es:ESHttpPost", "es:ESHttpDelete"]

/-- Domain.create_security_group: only when VpcId is truthy and
SecurityGroups is empty, add the security group and its output. -/
def create_security_group (v : Variables) (t : Template) : Template :=
  if v.VpcId ≠ "" ∧ v.SecurityGroups = [] then
    (t.add_resource
        (Resource.securityGroup SECURITY_GROUP "Security group for ElasticSearch" v.VpcId)).add_output
      { title := "SecurityGroup", Value := CfnValue.ref SECURITY_GROUP }
  else t

/-- Domain.create_linked_role: add the service linked role when asked. -/
def create_linked_role (v : Variables) (t : Template) : Template :=
  if v.CreateLinkedRole then
    t.add_resource (Resource.serviceLinkedRole LINKED_ROLE_NAME "es.amazonaws.com")
  else t

/-- Domain.create_dns_record: only when zone id, zone name and host name
are all truthy, add the CNAME record and its output. -/
def create_dns_record (v : Variables) (t : Template) : Template :=
  let should_create_dns :=
    v.InternalZoneId ≠ "" ∧ v.InternalZoneName ≠ "" ∧ v.InternalHostName ≠ ""
  if should_create_dns then
    (t.add_resource
        (Resource.recordSet DNS_RECORD v.InternalZoneId "ES Domain CNAME Record"
          (v.InternalHostName ++ "." ++ v.InternalZoneName) "CNAME" "120"
          [CfnValue.getAtt ES_DOMAIN "DomainEndpoint"])).add_output
      { title := "CNAME", Value := CfnValue.ref DNS_RECORD }
  else t

/-- The single statement of Domain.create_roles_policy. -/
def rolesPolicyStatement : Statement :=
  { Effect := Allow
    Action := get_allowed_actions
    Resource := [CfnValue.join "/" [CfnAtom.getAtt ES_DOMAIN "DomainArn", CfnAtom.str "*"]] }

/-- Domain.create_roles_policy: always add the IAM policy attached to the
Roles variable. -/
def create_roles_policy (v : Variables) (t : Template) : Template :=
  t.add_resource
    (Resource.policyType POLICY_NAME POLICY_NAME { Statement := [rolesPolicyStatement] } v.Roles)

/-- The allow statement Domain.get_access_policy builds for one trusted
network CIDR. -/
def trusted_network_statement (trusted_network : String) : Statement :=
  { Effect := Allow
    Action := get_allowed_actions
    Condition := some { IpAddress := [(SourceIp, trusted_network)] }
    Principal := some Everybody }

/-- Domain.get_access_policy: one statement per trusted network; when the
statement list is empty, the policy stays None. -/
def get_access_policy (v : Variables) : Option Policy :=
  let statements := v.TrustedNetworks.map trusted_network_statement
  if statements ≠ [] then some { Statement := statements } else none

/-- The encryption block of Domain.create_domain: when a key id is given,
a version below 5.1 (plain string order) raises, otherwise the
EncryptionAtRestOptions entry is set. -/
def encryption_step (v : Variables) (params : DomainParams) : Except String DomainParams :=
  if v.EncryptionAtRestKeyId ≠ "" then
    if v.ElasticsearchVersion < "5.1" then Except.error encErrorMsg
    else
      Except.ok
        { params with
          EncryptionAtRestOptions :=
            some { Enabled := true, KmsKeyId := v.EncryptionAtRestKeyId } }
  else Except.ok params

/-- The line sgs = SecurityGroups or [Ref(SECURITY_GROUP)] of
Domain.create_domain: python or yields the left list unless it is empty. -/
def resolved_security_groups (v : Variables) : List CfnValue :=
  if v.SecurityGroups ≠ [] then v.SecurityGroups.map CfnValue.str
  else [CfnValue.ref SECURITY_GROUP]

/-- The subnet block of Domain.create_domain: when Subnets is truthy,
missing both SecurityGroups and VpcId raises, otherwise the VPCOptions
entry is set from the explicit groups (or a Ref to the created group) and
the comma split of Subnets. -/
def subnet_step (v : Variables) (params : DomainParams) : Except String DomainParams :=
  if v.Subnets ≠ "" then
    if v.SecurityGroups = [] ∧ v.VpcId = "" then Except.error subnetErrorMsg
    else
      Except.ok
        { params with
          VPCOptions :=
            some
              { SecurityGroupIds := resolved_security_groups v
                SubnetIds := v.Subnets.splitOn "," } }
  else Except.ok params

/-- One iteration of the optional keys loop of Domain.create_domain for
the AdvancedOptions key: insert it only when the variable is truthy. -/
def optional_key_AdvancedOptions (v : Variables) (params : DomainParams) : DomainParams :=
  if v.AdvancedOptions ≠ [] then { params with AdvancedOptions := some v.AdvancedOptions }
  else params

/-- The optional keys loop iteration for DomainName. -/
def optional_key_DomainName (v : Variables) (params : DomainParams) : DomainParams :=
  if v.DomainName ≠ "" then { params with DomainName := some v.DomainName } else params

/-- The optional keys loop iteration for EBSOptions. -/
def optional_key_EBSOptions (v : Variables) (params : DomainParams) : DomainParams :=
  if v.EBSOptions ≠ [] then { params with EBSOptions := some v.EBSOptions } else params

/-- The optional keys loop iteration for ElasticsearchClusterConfig. -/
def optional_key_ElasticsearchClusterConfig (v : Variables) (params : DomainParams) :
    DomainParams :=
  if v.ElasticsearchClusterConfig ≠ [] then
    { params with ElasticsearchClusterConfig := some v.ElasticsearchClusterConfig }
  else params

/-- The optional keys loop iteration for SnapshotOptions. -/
def optional_key_SnapshotOptions (v : Variables) (params : DomainParams) : DomainParams :=
  if v.SnapshotOptions ≠ [] then { params with SnapshotOptions := some v.SnapshotOptions }
  else params

/-- The optional keys loop iteration for Tags. -/
def optional_key_Tags (v : Variables) (params : DomainParams) : DomainParams :=
  if v.Tags ≠ [] then { params with Tags := some v.Tags } else params

/-- The optional keys loop of Domain.create_domain, unrolled over the six
keys of the optional_keys list in source order. -/
def optional_keys_step (v : Variables) (params : DomainParams) : DomainParams :=
  optional_key_Tags v (optional_key_SnapshotOptions v
    (optional_key_ElasticsearchClusterConfig v (optional_key_EBSOptions v
      (optional_key_DomainName v (optional_key_AdvancedOptions v params)))))

/-- The params dict built by Domain.create_domain before from_dict: the
version always, the access policy when truthy, then the encryption block,
the subnet block, and the optional keys loop, in source order. -/
def domain_params (v : Variables) : Except String DomainParams :=
  let params : DomainParams :=
    { ElasticsearchVersion := v.ElasticsearchVersion
      AccessPolicies := get_access_policy v }
  (encryption_step v params).bind fun params =>
    (subnet_step v params).map fun params => optional_keys_step v params

/-- Domain.create_domain: build the params, add the domain resource and
the DomainArn and DomainEndpoint outputs. -/
def create_domain (v : Variables) (t : Template) : Except String Template :=
  match domain_params v with
  | Except.error e => Except.error e
  | Except.ok params =>
    Except.ok
      (((t.add_resource (Resource.esDomain ES_DOMAIN params)).add_output
            { title := "DomainArn", Value := CfnValue.getAtt ES_DOMAIN "DomainArn" }).add_output
        { title := "DomainEndpoint", Value := CfnValue.getAtt ES_DOMAIN "DomainEndpoint" })

/-- Domain.create_template: the five sub steps in source order; a raise in
create_domain aborts the build with no template. -/
def create_template (v : Variables) : Except String Template :=
  let t : Template := {}
  let t := create_security_group v t
  let t := create_linked_role v t
  match create_domain v t with
  | Except.error e => Except.error e
  | Except.ok t => Except.ok (create_roles_policy v (create_dns_record v t))

/-! Observers on templates, used to state the properties. -/

def Resource.isSecurityGroup : Resource → Bool
  | Resource.securityGroup _ _ _ => true
  | _ => false

def Resource.isLinkedRole : Resource → Bool
  | Resource.serviceLinkedRole _ _ => true
  | _ => false

def Resource.isEsDomain : Resource → Bool
  | Resource.esDomain _ _ => true
  | _ => false

def Resource.isDnsRecord : Resource → Bool
  | Resource.recordSet _ _ _ _ _ _ _ => true
  | _ => false

def Resource.isPolicyType : Resource → Bool
  | Resource.policyType _ _ _ _ => true
  | _ => false

/-- The fixed logical id that belongs to each resource kind. -/
def Resource.kindTitle : Resource → String
  | Resource.securityGroup _ _ _ => SECURITY_GROUP
  | Resource.serviceLinkedRole _ _ => LINKED_ROLE_NAME
  | Resource.esDomain _ _ => ES_DOMAIN
  | Resource.recordSet _ _ _ _ _ _ _ => DNS_RECORD
  | Resource.policyType _ _ _ _ => POLICY_NAME

def Template.securityGroupResources (t : Template) : List Resource :=
  t.Resources.filter Resource.isSecurityGroup

def Template.linkedRoleResources (t : Template) : List Resource :=
  t.Resources.filter Resource.isLinkedRole

def Template.esDomainResources (t : Template) : List Resource :=
  t.Resources.filter Resource.isEsDomain

def Template.dnsRecordResources (t : Template) : List Resource :=
  t.Resources.filter Resource.isDnsRecord

def Template.policyResources (t : Template) : List Resource :=
  t.Resources.filter Resource.isPolicyType

/-- The params of the domain resources of a template, in order. -/
def Template.esDomainParamsList (t : Template) : List DomainParams :=
  t.Resources.filterMap fun r =>
    match r with
    | Resource.esDomain _ p => some p
    | _ => none

/-- Whether the template has an output of the given name. -/
def Template.hasOutput (t : Template) (n : String) : Bool :=
  t.Outputs.any fun o => o.title == n

/-! Characterization of the builder, proved from the definitions above. -/

/-- The fully determined params dict of a variable set that passes both
validation gates. -/
def finalParams (v : Variables) : DomainParams :=
  optional_keys_step v
    { ElasticsearchVersion := v.ElasticsearchVersion
      AccessPolicies := get_access_policy v
      EncryptionAtRestOptions :=
        if v.EncryptionAtRestKeyId ≠ "" then
          some { Enabled := true, KmsKeyId := v.EncryptionAtRestKeyId }
        else none
      VPCOptions :=
        if v.Subnets ≠ "" then
          some { SecurityGroupIds := resolved_security_groups v
                 SubnetIds := v.Subnets.splitOn "," }
        else none }

/-- The template produced on success with the given domain params. -/
def builtTemplate (v : Variables) (params : DomainParams) : Template :=
  create_roles_policy v (create_dns_record v
    ((((create_linked_role v (create_security_group v {})).add_resource
          (Resource.esDomain ES_DOMAIN params)).add_output
        { title := "DomainArn", Value := CfnValue.getAtt ES_DOMAIN "DomainArn" }).add_output
      { title := "DomainEndpoint", Value := CfnValue.getAtt ES_DOMAIN "DomainEndpoint" }))

theorem domain_params_eq (v : Variables) :
    domain_params v =
      if v.EncryptionAtRestKeyId ≠ "" ∧ v.ElasticsearchVersion < "5.1" then
        Except.error encErrorMsg
      else if v.Subnets ≠ "" ∧ v.SecurityGroups = [] ∧ v.VpcId = "" then
        Except.error subnetErrorMsg
      else Except.ok (finalParams v) := by
  unfold domain_params encryption_step subnet_step finalParams
  by_cases hk : v.EncryptionAtRestKeyId = "" <;>
    by_cases hv : v.ElasticsearchVersion < "5.1" <;>
      by_cases hs : v.Subnets = "" <;>
        by_cases hg : v.SecurityGroups = [] ∧ v.VpcId = "" <;>
          simp [hk, hv, hs, hg, Except.map, Except.bind]

theorem create_template_eq (v : Variables) :
    create_template v = (domain_params v).map (builtTemplate v) := by
  unfold create_template create_domain builtTemplate
  cases h : domain_params v <;> simp [Except.map, h]

theorem create_template_ok_iff (v : Variables) (t : Template) :
    create_template v = Except.ok t ↔
      ¬(v.EncryptionAtRestKeyId ≠ "" ∧ v.ElasticsearchVersion < "5.1") ∧
      ¬(v.Subnets ≠ "" ∧ v.SecurityGroups = [] ∧ v.VpcId = "") ∧
      t = builtTemplate v (finalParams v) := by
  rw [create_template_eq, domain_params_eq]
  split_ifs with h1 h2
  · simp only [Except.map]
    exact iff_of_false (fun h => Except.noConfusion h) (fun h => h.1 h1)
  · simp only [Except.map]
    exact iff_of_false (fun h => Except.noConfusion h) (fun h => h.2.1 h2)
  · simp only [Except.map]
    constructor
    · intro h
      exact ⟨h1, h2, (Except.ok.inj h).symm⟩
    · intro h
      rw [h.2.2]

theorem create_template_error_iff (v : Variables) (e : String) :
    create_template v = Except.error e ↔
      (v.EncryptionAtRestKeyId ≠ "" ∧ v.ElasticsearchVersion < "5.1" ∧ e = encErrorMsg) ∨
      (¬(v.EncryptionAtRestKeyId ≠ "" ∧ v.ElasticsearchVersion < "5.1") ∧
        v.Subnets ≠ "" ∧ v.SecurityGroups = [] ∧ v.VpcId = "" ∧ e = subnetErrorMsg) := by
  rw [create_template_eq, domain_params_eq]
  split_ifs with h1 h2
  · simp only [Except.map]
    constructor
    · intro h
      exact Or.inl ⟨h1.1, h1.2, (Except.error.inj h).symm⟩
    · rintro (⟨_, _, he⟩ | ⟨hn, _⟩)
      · rw [he]
      · exact absurd h1 hn
  · simp only [Except.map]
    constructor
    · intro h
      exact Or.inr ⟨h1, h2.1, h2.2.1, h2.2.2, (Except.error.inj h).symm⟩
    · rintro (⟨hk, hv, _⟩ | ⟨_, _, _, _, he⟩)
      · exact absurd ⟨hk, hv⟩ h1
      · rw [he]
  · simp only [Except.map]
    constructor
    · intro h
      exact Except.noConfusion h
    · rintro (⟨hk, hv, _⟩ | ⟨_, hs, hg, hvp, _⟩)
      · exact absurd ⟨hk, hv⟩ h1
      · exact absurd ⟨hs, hg, hvp⟩ h2

/-- The DNS record the builder adds when all three DNS variables are
truthy. -/
def dnsRecordOf (v : Variables) : Resource :=
  Resource.recordSet DNS_RECORD v.InternalZoneId "ES Domain CNAME Record"
    (v.InternalHostName ++ "." ++ v.InternalZoneName) "CNAME" "120"
    [CfnValue.getAtt ES_DOMAIN "DomainEndpoint"]

/-- The IAM policy resource the builder always adds last. -/
def rolesPolicyOf (v : Variables) : Resource :=
  Resource.policyType POLICY_NAME POLICY_NAME { Statement := [rolesPolicyStatement] } v.Roles

theorem builtTemplate_Resources (v : Variables) (p : DomainParams) :
    (builtTemplate v p).Resources =
      (if v.VpcId ≠ "" ∧ v.SecurityGroups = [] then
        [Resource.securityGroup SECURITY_GROUP "Security group for ElasticSearch" v.VpcId]
       else []) ++
      (if v.CreateLinkedRole then
        [Resource.serviceLinkedRole LINKED_ROLE_NAME "es.amazonaws.com"]
       else []) ++
      [Resource.esDomain ES_DOMAIN p] ++
      (if v.InternalZoneId ≠ "" ∧ v.InternalZoneName ≠ "" ∧ v.InternalHostName ≠ "" then
        [dnsRecordOf v]
       else []) ++
      [rolesPolicyOf v] := by
  unfold builtTemplate create_roles_policy create_dns_record create_linked_role
    create_security_group Template.add_resource Template.add_output dnsRecordOf rolesPolicyOf
  dsimp only
  split_ifs <;> simp

theorem builtTemplate_Outputs (v : Variables) (p : DomainParams) :
    (builtTemplate v p).Outputs =
      (if v.VpcId ≠ "" ∧ v.SecurityGroups = [] then
        [{ title := "SecurityGroup", Value := CfnValue.ref SECURITY_GROUP }]
       else ([] : List TemplateOutput)) ++
      [{ title := "DomainArn", Value := CfnValue.getAtt ES_DOMAIN "DomainArn" },
       { title := "DomainEndpoint", Value := CfnValue.getAtt ES_DOMAIN "DomainEndpoint" }] ++
      (if v.InternalZoneId ≠ "" ∧ v.InternalZoneName ≠ "" ∧ v.InternalHostName ≠ "" then
        [{ title := "CNAME", Value := CfnValue.ref DNS_RECORD }]
       else []) := by
  unfold builtTemplate create_roles_policy create_dns_record create_linked_role
    create_security_group Template.add_resource Template.add_output
  dsimp only
  split_ifs <;> simp

theorem builtTemplate_securityGroupResources (v : Variables) (p : DomainParams) :
    (builtTemplate v p).securityGroupResources =
      if v.VpcId ≠ "" ∧ v.SecurityGroups = [] then
        [Resource.securityGroup SECURITY_GROUP "Security group for ElasticSearch" v.VpcId]
      else [] := by
  unfold Template.securityGroupResources
  rw [builtTemplate_Resources]
  split_ifs <;>
    simp [List.filter_append, Resource.isSecurityGroup, dnsRecordOf, rolesPolicyOf]

theorem builtTemplate_linkedRoleResources (v : Variables) (p : DomainParams) :
    (builtTemplate v p).linkedRoleResources =
      if v.CreateLinkedRole then
        [Resource.serviceLinkedRole LINKED_ROLE_NAME "es.amazonaws.com"]
      else [] := by
  unfold Template.linkedRoleResources
  rw [builtTemplate_Resources]
  split_ifs <;>
    simp [List.filter_append, Resource.isLinkedRole, dnsRecordOf, rolesPolicyOf]

theorem builtTemplate_esDomainResources (v : Variables) (p : DomainParams) :
    (builtTemplate v p).esDomainResources = [Resource.esDomain ES_DOMAIN p] := by
  unfold Template.esDomainResources
  rw [builtTemplate_Resources]
  split_ifs <;>
    simp [List.filter_append, Resource.isEsDomain, dnsRecordOf, rolesPolicyOf]

theorem builtTemplate_dnsRecordResources (v : Variables) (p : DomainParams) :
    (builtTemplate v p).dnsRecordResources =
      if v.InternalZoneId ≠ "" ∧ v.InternalZoneName ≠ "" ∧ v.InternalHostName ≠ "" then
        [dnsRecordOf v]
      else [] := by
  unfold Template.dnsRecordResources
  rw [builtTemplate_Resources]
  split_ifs <;>
    simp [List.filter_append, Resource.isDnsRecord, dnsRecordOf, rolesPolicyOf]

theorem builtTemplate_policyResources (v : Variables) (p : DomainParams) :
    (builtTemplate v p).policyResources = [rolesPolicyOf v] := by
  unfold Template.policyResources
  rw [builtTemplate_Resources]
  split_ifs <;>
    simp [List.filter_append, Resource.isPolicyType, dnsRecordOf, rolesPolicyOf]

theorem builtTemplate_esDomainParamsList (v : Variables) (p : DomainParams) :
    (builtTemplate v p).esDomainParamsList = [p] := by
  unfold Template.esDomainParamsList
  rw [builtTemplate_Resources]
  split_ifs <;>
    simp [List.filterMap_append, dnsRecordOf, rolesPolicyOf]

theorem builtTemplate_hasOutput_SecurityGroup (v : Variables) (p : DomainParams) :
    ((builtTemplate v p).hasOutput "SecurityGroup" = true) ↔
      v.VpcId ≠ "" ∧ v.SecurityGroups = [] := by
  unfold Template.hasOutput
  rw [builtTemplate_Outputs]
  split_ifs with h1 h2 <;> simp [List.any_append, h1]

theorem builtTemplate_hasOutput_CNAME (v : Variables) (p : DomainParams) :
    ((builtTemplate v p).hasOutput "CNAME" = true) ↔
      v.InternalZoneId ≠ "" ∧ v.InternalZoneName ≠ "" ∧ v.InternalHostName ≠ "" := by
  unfold Template.hasOutput
  rw [builtTemplate_Outputs]
  split_ifs <;> simp_all [List.any_append]

/-- Membership in a conditional singleton forces equality. -/
theorem mem_ite_singleton {α : Type} {c : Prop} [Decidable c] {a x : α}
    (h : x ∈ if c then [a] else []) : x = a := by
  split_ifs at h with hc
  · simpa using h
  · simp at h

theorem builtTemplate_title_eq_kindTitle (v : Variables) (p : DomainParams) :
    ∀ r ∈ (builtTemplate v p).Resources, Resource.title r = Resource.kindTitle r := by
  intro r hr
  rw [builtTemplate_Resources] at hr
  simp only [List.mem_append] at hr
  rcases hr with ((((hr | hr) | hr) | hr) | hr)
  · rw [mem_ite_singleton hr]; rfl
  · rw [mem_ite_singleton hr]; rfl
  · simp only [List.mem_singleton] at hr
    rw [hr]; rfl
  · rw [mem_ite_singleton hr]
    rfl
  · simp only [List.mem_singleton] at hr
    rw [hr]; rfl

theorem optional_key_AdvancedOptions_eq (v : Variables) (p : DomainParams) :
    optional_key_AdvancedOptions v p =
      { p with
        AdvancedOptions :=
          if v.AdvancedOptions ≠ [] then some v.AdvancedOptions else p.AdvancedOptions } := by
  unfold optional_key_AdvancedOptions
  split_ifs <;> rfl

theorem optional_key_DomainName_eq (v : Variables) (p : DomainParams) :
    optional_key_DomainName v p =
      { p with
        DomainName := if v.DomainName ≠ "" then some v.DomainName else p.DomainName } := by
  unfold optional_key_DomainName
  split_ifs <;> rfl

theorem optional_key_EBSOptions_eq (v : Variables) (p : DomainParams) :
    optional_key_EBSOptions v p =
      { p with
        EBSOptions := if v.EBSOptions ≠ [] then some v.EBSOptions else p.EBSOptions } := by
  unfold optional_key_EBSOptions
  split_ifs <;> rfl

theorem optional_key_ElasticsearchClusterConfig_eq (v : Variables) (p : DomainParams) :
    optional_key_ElasticsearchClusterConfig v p =
      { p with
        ElasticsearchClusterConfig :=
          if v.ElasticsearchClusterConfig ≠ [] then some v.ElasticsearchClusterConfig
          else p.ElasticsearchClusterConfig } := by
  unfold optional_key_ElasticsearchClusterConfig
  split_ifs <;> rfl

theorem optional_key_SnapshotOptions_eq (v : Variables) (p : DomainParams) :
    optional_key_SnapshotOptions v p =
      { p with
        SnapshotOptions :=
          if v.SnapshotOptions ≠ [] then some v.SnapshotOptions else p.SnapshotOptions } := by
  unfold optional_key_SnapshotOptions
  split_ifs <;> rfl

theorem optional_key_Tags_eq (v : Variables) (p : DomainParams) :
    optional_key_Tags v p =
      { p with Tags := if v.Tags ≠ [] then some v.Tags else p.Tags } := by
  unfold optional_key_Tags
  split_ifs <;> rfl

/-- The fully determined shape of the params dict of a passing variable
set, one if per conditionally present key. -/
theorem finalParams_eq (v : Variables) :
    finalParams v =
      { ElasticsearchVersion := v.ElasticsearchVersion
        AccessPolicies := get_access_policy v
        EncryptionAtRestOptions :=
          if v.EncryptionAtRestKeyId ≠ "" then
            some { Enabled := true, KmsKeyId := v.EncryptionAtRestKeyId }
          else none
        VPCOptions :=
          if v.Subnets ≠ "" then
            some { SecurityGroupIds := resolved_security_groups v
                   SubnetIds := v.Subnets.splitOn "," }
          else none
        AdvancedOptions :=
          if v.AdvancedOptions ≠ [] then some v.AdvancedOptions else none
        DomainName := if v.DomainName ≠ "" then some v.DomainName else none
        EBSOptions := if v.EBSOptions ≠ [] then some v.EBSOptions else none
        ElasticsearchClusterConfig :=
          if v.ElasticsearchClusterConfig ≠ [] then some v.ElasticsearchClusterConfig
          else none
        SnapshotOptions :=
          if v.SnapshotOptions ≠ [] then some v.SnapshotOptions else none
        Tags := if v.Tags ≠ [] then some v.Tags else none } := by
  unfold finalParams optional_keys_step
  rw [optional_key_AdvancedOptions_eq, optional_key_DomainName_eq, optional_key_EBSOptions_eq,
    optional_key_ElasticsearchClusterConfig_eq, optional_key_SnapshotOptions_eq,
    optional_key_Tags_eq]

/-! Concrete variable sets used by the witnesses and the counterexample. -/

/-- Key set, version lexically equal to 5.1, subnets given with neither
security groups nor a VPC id. -/
def c1xVars : Variables :=
  { EncryptionAtRestKeyId := "kms-key-1", ElasticsearchVersion := "5.1", Subnets := "subnet-1" }

/-- Key set with a version lexically below 5.1. -/
def c1Vars : Variables :=
  { EncryptionAtRestKeyId := "kms-key-1", ElasticsearchVersion := "5.0" }

def c2Vars : Variables := { Subnets := "subnet-a,subnet-b", VpcId := "vpc-1" }

def c3Vars : Variables := { TrustedNetworks := ["10.0.0.0/8", "192.168.0.0/16"] }

def c3Template : Template := builtTemplate c3Vars (finalParams c3Vars)

def c4Vars : Variables := { Subnets := "subnet-1" }

def c5Vars : Variables := { VpcId := "vpc-1" }

def c5Template : Template := builtTemplate c5Vars (finalParams c5Vars)

def c6Vars : Variables :=
  { InternalZoneId := "Z1", InternalZoneName := "example.com", InternalHostName := "es" }

def c6Template : Template := builtTemplate c6Vars (finalParams c6Vars)

def c7Vars : Variables := { Roles := ["role-A", "role-B"] }

def c7Template : Template := builtTemplate c7Vars (finalParams c7Vars)

def c8Vars : Variables :=
  { AdvancedOptions := [("rest.action.multi.allow_explicit_index", "true")]
    DomainName := "my-domain"
    Tags := [("env", "prod")] }

def c8Template : Template := builtTemplate c8Vars (finalParams c8Vars)

def c9Vars : Variables := { CreateLinkedRole := true, VpcId := "vpc-1" }

def c9Template : Template := builtTemplate c9Vars (finalParams c9Vars)

/-- Version lexically far below 5.1 with no encryption key. -/
def c10Vars : Variables := { ElasticsearchVersion := "1.5" }

/-! The claims. -/

/-- C1 (amended): when EncryptionAtRestKeyId is non-empty, a version
lexically below "5.1" makes the build fail with the encryption validation
error; a version lexically at least "5.1" never triggers the encryption
error, and any template the build does produce carries
EncryptionAtRestOptions with Enabled and the supplied key id.  The build
can still fail the independent subnet validation, so success itself is
not guaranteed. -/
theorem c1_encryption_version_gate (v : Variables) (hk : v.EncryptionAtRestKeyId ≠ "") :
    (v.ElasticsearchVersion < "5.1" → create_template v = Except.error encErrorMsg) ∧
    (¬ v.ElasticsearchVersion < "5.1" →
      create_template v ≠ Except.error encErrorMsg ∧
      ∀ t, create_template v = Except.ok t → ∀ p ∈ t.esDomainParamsList,
        p.EncryptionAtRestOptions =
          some { Enabled := true, KmsKeyId := v.EncryptionAtRestKeyId }) := by
  constructor
  · intro hlt
    rw [create_template_error_iff]
    exact Or.inl ⟨hk, hlt, rfl⟩
  · intro hge
    constructor
    · intro h
      rw [create_template_error_iff] at h
      rcases h with ⟨_, hlt, _⟩ | ⟨_, _, _, _, hmsg⟩
      · exact hge hlt
      · exact absurd hmsg (by decide)
    · intro t ht p hp
      rw [create_template_ok_iff] at ht
      rw [ht.2.2, builtTemplate_esDomainParamsList] at hp
      simp only [List.mem_singleton] at hp
      subst hp
      rw [finalParams_eq]
      simp [hk]

/-- C1 witness: at c1Vars the key is set and the version "5.0" is
lexically below "5.1", so the build fails with the encryption error. -/
theorem c1_encryption_version_gate_witness :
    c1Vars.EncryptionAtRestKeyId ≠ "" ∧
    ((c1Vars.ElasticsearchVersion < "5.1" →
        create_template c1Vars = Except.error encErrorMsg) ∧
      (¬ c1Vars.ElasticsearchVersion < "5.1" →
        create_template c1Vars ≠ Except.error encErrorMsg ∧
        ∀ t, create_template c1Vars = Except.ok t → ∀ p ∈ t.esDomainParamsList,
          p.EncryptionAtRestOptions =
            some { Enabled := true, KmsKeyId := c1Vars.EncryptionAtRestKeyId })) :=
  ⟨by decide, c1_encryption_version_gate c1Vars (by decide)⟩

/-- C1 counterexample: c1xVars has a non-empty key and version "5.1",
which is not lexically below "5.1", yet the build fails (with the subnet
validation error), refuting the claim that the build succeeds whenever
the key is set and the version is lexically at least "5.1". -/
theorem c1_build_succeeds_counterexample :
    c1xVars.EncryptionAtRestKeyId ≠ "" ∧
    ¬ c1xVars.ElasticsearchVersion < "5.1" ∧
    create_template c1xVars = Except.error subnetErrorMsg := by
  refine ⟨by decide, ?_, ?_⟩
  · exact fun h => absurd h (lt_irrefl _)
  · rw [create_template_error_iff]
    exact Or.inr ⟨fun hc => absurd hc.2 (lt_irrefl _), by decide, rfl, rfl, rfl⟩

/-- C2: with Subnets non-empty, missing both SecurityGroups and VpcId
fails the build with a validation error; otherwise any produced domain
resource carries VPCOptions with the explicit security group list (or the
single Ref to the auto-created group) and the comma split of Subnets. -/
theorem c2_subnet_gate (v : Variables) (hs : v.Subnets ≠ "") :
    (v.SecurityGroups = [] ∧ v.VpcId = "" → ∃ e, create_template v = Except.error e) ∧
    (¬(v.SecurityGroups = [] ∧ v.VpcId = "") →
      ∀ t, create_template v = Except.ok t → ∀ p ∈ t.esDomainParamsList,
        p.VPCOptions =
          some { SecurityGroupIds :=
                   if v.SecurityGroups ≠ [] then v.SecurityGroups.map CfnValue.str
                   else [CfnValue.ref SECURITY_GROUP]
                 SubnetIds := v.Subnets.splitOn "," }) := by
  constructor
  · rintro ⟨hg, hv⟩
    by_cases h1 : v.EncryptionAtRestKeyId ≠ "" ∧ v.ElasticsearchVersion < "5.1"
    · exact ⟨encErrorMsg, by
        rw [create_template_error_iff]
        exact Or.inl ⟨h1.1, h1.2, rfl⟩⟩
    · exact ⟨subnetErrorMsg, by
        rw [create_template_error_iff]
        exact Or.inr ⟨h1, hs, hg, hv, rfl⟩⟩
  · intro hng t ht p hp
    rw [create_template_ok_iff] at ht
    rw [ht.2.2, builtTemplate_esDomainParamsList] at hp
    simp only [List.mem_singleton] at hp
    subst hp
    rw [finalParams_eq]
    simp [hs, resolved_security_groups]

/-- C2 witness at c2Vars: subnets and a VPC id are given, so a produced
domain carries the Ref to the auto-created group and the split subnet
list. -/
theorem c2_subnet_gate_witness :
    (c2Vars.SecurityGroups = [] ∧ c2Vars.VpcId = "" →
      ∃ e, create_template c2Vars = Except.error e) ∧
    (¬(c2Vars.SecurityGroups = [] ∧ c2Vars.VpcId = "") →
      ∀ t, create_template c2Vars = Except.ok t → ∀ p ∈ t.esDomainParamsList,
        p.VPCOptions =
          some { SecurityGroupIds :=
                   if c2Vars.SecurityGroups ≠ [] then c2Vars.SecurityGroups.map CfnValue.str
                   else [CfnValue.ref SECURITY_GROUP]
                 SubnetIds := c2Vars.Subnets.splitOn "," }) :=
  c2_subnet_gate c2Vars (by decide)

/-- C3: on a successful build the domain resource carries the access
policy with exactly one allow statement per trusted network, each
granting the four ES HTTP actions to Everybody under an IpAddress
SourceIp condition on that CIDR; with no trusted networks the
AccessPolicies key is absent. -/
theorem c3_access_policy (v : Variables) (t : Template)
    (ht : create_template v = Except.ok t) :
    ∀ p ∈ t.esDomainParamsList,
      p.AccessPolicies =
        if v.TrustedNetworks ≠ [] then
          some { Statement := v.TrustedNetworks.map trusted_network_statement }
        else none := by
  intro p hp
  rw [create_template_ok_iff] at ht
  rw [ht.2.2, builtTemplate_esDomainParamsList] at hp
  simp only [List.mem_singleton] at hp
  subst hp
  rw [finalParams_eq]
  show get_access_policy v = _
  unfold get_access_policy
  by_cases h : v.TrustedNetworks = [] <;> simp [h]

/-- C3 witness: the build at c3Vars (two trusted networks) puts exactly
the two matching allow statements on the domain resource. -/
theorem c3_access_policy_witness :
    create_template c3Vars = Except.ok c3Template ∧
    ∀ p ∈ c3Template.esDomainParamsList,
      p.AccessPolicies =
        if c3Vars.TrustedNetworks ≠ [] then
          some { Statement := c3Vars.TrustedNetworks.map trusted_network_statement }
        else none :=
  ⟨rfl, c3_access_policy c3Vars c3Template rfl⟩

/-- C4: whenever either validation condition holds, the build ends in one
of the two validation errors and no template at all is produced. -/
theorem c4_validation_failure_aborts (v : Variables)
    (h : (v.EncryptionAtRestKeyId ≠ "" ∧ v.ElasticsearchVersion < "5.1") ∨
      (v.Subnets ≠ "" ∧ v.SecurityGroups = [] ∧ v.VpcId = "")) :
    (∃ e, create_template v = Except.error e ∧ (e = encErrorMsg ∨ e = subnetErrorMsg)) ∧
    ∀ t, create_template v ≠ Except.ok t := by
  have herr :
      ∃ e, create_template v = Except.error e ∧ (e = encErrorMsg ∨ e = subnetErrorMsg) := by
    rcases h with h1 | h2
    · exact ⟨encErrorMsg, by
        rw [create_template_error_iff]
        exact Or.inl ⟨h1.1, h1.2, rfl⟩, Or.inl rfl⟩
    · by_cases h1 : v.EncryptionAtRestKeyId ≠ "" ∧ v.ElasticsearchVersion < "5.1"
      · exact ⟨encErrorMsg, by
          rw [create_template_error_iff]
          exact Or.inl ⟨h1.1, h1.2, rfl⟩, Or.inl rfl⟩
      · exact ⟨subnetErrorMsg, by
          rw [create_template_error_iff]
          exact Or.inr ⟨h1, h2.1, h2.2.1, h2.2.2, rfl⟩, Or.inr rfl⟩
  refine ⟨herr, ?_⟩
  rcases herr with ⟨e, he, _⟩
  intro t ht
  rw [ht] at he
  exact Except.noConfusion he

/-- C4 witness at c4Vars: subnets given with neither security groups nor
a VPC id, so the build aborts with a validation error and yields no
template. -/
theorem c4_validation_failure_aborts_witness :
    (∃ e, create_template c4Vars = Except.error e ∧
      (e = encErrorMsg ∨ e = subnetErrorMsg)) ∧
    ∀ t, create_template c4Vars ≠ Except.ok t :=
  c4_validation_failure_aborts c4Vars (Or.inr ⟨by decide, rfl, rfl⟩)

/-- C5: on a successful build the security group resources of the
template are exactly one group scoped to VpcId when VpcId is non-empty
and SecurityGroups is empty, and none otherwise; the SecurityGroup output
is present under exactly the same condition. -/
theorem c5_security_group_iff (v : Variables) (t : Template)
    (ht : create_template v = Except.ok t) :
    t.securityGroupResources =
      (if v.VpcId ≠ "" ∧ v.SecurityGroups = [] then
        [Resource.securityGroup SECURITY_GROUP "Security group for ElasticSearch" v.VpcId]
       else []) ∧
    (t.hasOutput "SecurityGroup" = true ↔ v.VpcId ≠ "" ∧ v.SecurityGroups = []) := by
  rw [create_template_ok_iff] at ht
  rw [ht.2.2]
  exact ⟨builtTemplate_securityGroupResources v _, builtTemplate_hasOutput_SecurityGroup v _⟩

/-- C5 witness at c5Vars: VpcId set, SecurityGroups empty, so exactly one
security group scoped to vpc-1 with its output. -/
theorem c5_security_group_iff_witness :
    c5Template.securityGroupResources =
      [Resource.securityGroup SECURITY_GROUP "Security group for ElasticSearch" "vpc-1"] ∧
    (c5Template.hasOutput "SecurityGroup" = true ↔
      c5Vars.VpcId ≠ "" ∧ c5Vars.SecurityGroups = []) := by
  have h := c5_security_group_iff c5Vars c5Template rfl
  exact ⟨by rw [h.1, if_pos (by decide)]; rfl, h.2⟩

/-- C6: on a successful build the DNS record resources are exactly one
CNAME with the fixed id, TTL 120, name host.zone, pointing at the domain
endpoint attribute, when all three DNS variables are non-empty, and none
otherwise; the CNAME output is present under the same condition. -/
theorem c6_dns_record_iff (v : Variables) (t : Template)
    (ht : create_template v = Except.ok t) :
    t.dnsRecordResources =
      (if v.InternalZoneId ≠ "" ∧ v.InternalZoneName ≠ "" ∧ v.InternalHostName ≠ "" then
        [Resource.recordSet DNS_RECORD v.InternalZoneId "ES Domain CNAME Record"
          (v.InternalHostName ++ "." ++ v.InternalZoneName) "CNAME" "120"
          [CfnValue.getAtt ES_DOMAIN "DomainEndpoint"]]
       else []) ∧
    (t.hasOutput "CNAME" = true ↔
      v.InternalZoneId ≠ "" ∧ v.InternalZoneName ≠ "" ∧ v.InternalHostName ≠ "") := by
  rw [create_template_ok_iff] at ht
  rw [ht.2.2]
  constructor
  · rw [builtTemplate_dnsRecordResources]
    unfold dnsRecordOf
    rfl
  · exact builtTemplate_hasOutput_CNAME v _

/-- C6 witness at c6Vars (zone id Z1, zone example.com, host es): exactly
one CNAME record named es.example.com with TTL 120 at the fixed id,
pointing at the DomainEndpoint attribute, with its output. -/
theorem c6_dns_record_iff_witness :
    c6Template.dnsRecordResources =
      [Resource.recordSet DNS_RECORD "Z1" "ES Domain CNAME Record" "es.example.com" "CNAME"
        "120" [CfnValue.getAtt ES_DOMAIN "DomainEndpoint"]] ∧
    (c6Template.hasOutput "CNAME" = true ↔
      c6Vars.InternalZoneId ≠ "" ∧ c6Vars.InternalZoneName ≠ "" ∧
        c6Vars.InternalHostName ≠ "") := by
  have h := c6_dns_record_iff c6Vars c6Template rfl
  exact ⟨by rw [h.1, if_pos (by decide)]; rfl, h.2⟩

/-- C7: every successful build holds exactly one IAM policy resource,
named with the fixed id, attached to the Roles list as given (possibly
empty), whose single statement allows the four ES HTTP actions on the
Join of the domain ARN attribute with a wildcard. -/
theorem c7_roles_policy_always (v : Variables) (t : Template)
    (ht : create_template v = Except.ok t) :
    t.policyResources =
      [Resource.policyType POLICY_NAME POLICY_NAME
        { Statement :=
            [{ Effect := Allow
               Action := get_allowed_actions
               Resource :=
                 [CfnValue.join "/" [CfnAtom.getAtt ES_DOMAIN "DomainArn", CfnAtom.str "*"]] }] }
        v.Roles] := by
  rw [create_template_ok_iff] at ht
  rw [ht.2.2, builtTemplate_policyResources]
  rfl

/-- C7 witness at c7Vars: the policy resource attached to role-A and
role-B. -/
theorem c7_roles_policy_always_witness :
    c7Template.policyResources =
      [Resource.policyType POLICY_NAME POLICY_NAME
        { Statement :=
            [{ Effect := Allow
               Action := get_allowed_actions
               Resource :=
                 [CfnValue.join "/" [CfnAtom.getAtt ES_DOMAIN "DomainArn", CfnAtom.str "*"]] }] }
        ["role-A", "role-B"]] :=
  c7_roles_policy_always c7Vars c7Template rfl

/-- C8: on a successful build each of the six optional keys is present on
the domain resource exactly when its variable is non-empty, and absent
(not set to an empty value) otherwise. -/
theorem c8_optional_keys_iff (v : Variables) (t : Template)
    (ht : create_template v = Except.ok t) :
    ∀ p ∈ t.esDomainParamsList,
      p.AdvancedOptions = (if v.AdvancedOptions ≠ [] then some v.AdvancedOptions else none) ∧
      p.DomainName = (if v.DomainName ≠ "" then some v.DomainName else none) ∧
      p.EBSOptions = (if v.EBSOptions ≠ [] then some v.EBSOptions else none) ∧
      p.ElasticsearchClusterConfig =
        (if v.ElasticsearchClusterConfig ≠ [] then some v.ElasticsearchClusterConfig
         else none) ∧
      p.SnapshotOptions = (if v.SnapshotOptions ≠ [] then some v.SnapshotOptions else none) ∧
      p.Tags = (if v.Tags ≠ [] then some v.Tags else none) := by
  intro p hp
  rw [create_template_ok_iff] at ht
  rw [ht.2.2, builtTemplate_esDomainParamsList] at hp
  simp only [List.mem_singleton] at hp
  subst hp
  rw [finalParams_eq]
  exact ⟨rfl, rfl, rfl, rfl, rfl, rfl⟩

/-- C8 witness at c8Vars: AdvancedOptions, DomainName and Tags are
non-empty and present; EBSOptions, cluster config and snapshot options
are empty and absent. -/
theorem c8_optional_keys_iff_witness :
    create_template c8Vars = Except.ok c8Template ∧
    ∀ p ∈ c8Template.esDomainParamsList,
      p.AdvancedOptions =
        (if c8Vars.AdvancedOptions ≠ [] then some c8Vars.AdvancedOptions else none) ∧
      p.DomainName = (if c8Vars.DomainName ≠ "" then some c8Vars.DomainName else none) ∧
      p.EBSOptions = (if c8Vars.EBSOptions ≠ [] then some c8Vars.EBSOptions else none) ∧
      p.ElasticsearchClusterConfig =
        (if c8Vars.ElasticsearchClusterConfig ≠ [] then some c8Vars.ElasticsearchClusterConfig
         else none) ∧
      p.SnapshotOptions =
        (if c8Vars.SnapshotOptions ≠ [] then some c8Vars.SnapshotOptions else none) ∧
      p.Tags = (if c8Vars.Tags ≠ [] then some c8Vars.Tags else none) :=
  ⟨rfl, c8_optional_keys_iff c8Vars c8Template rfl⟩

/-- C9: on a successful build every resource carries the fixed logical id
of its kind, and each of the five kinds occurs at most once. -/
theorem c9_fixed_identifiers (v : Variables) (t : Template)
    (ht : create_template v = Except.ok t) :
    (∀ r ∈ t.Resources, Resource.title r = Resource.kindTitle r) ∧
    t.securityGroupResources.length ≤ 1 ∧
    t.linkedRoleResources.length ≤ 1 ∧
    t.esDomainResources.length ≤ 1 ∧
    t.dnsRecordResources.length ≤ 1 ∧
    t.policyResources.length ≤ 1 := by
  rw [create_template_ok_iff] at ht
  rw [ht.2.2]
  refine ⟨builtTemplate_title_eq_kindTitle v _, ?_, ?_, ?_, ?_, ?_⟩
  · rw [builtTemplate_securityGroupResources]
    split_ifs <;> simp
  · rw [builtTemplate_linkedRoleResources]
    split_ifs <;> simp
  · rw [builtTemplate_esDomainResources]
    simp
  · rw [builtTemplate_dnsRecordResources]
    split_ifs <;> simp
  · rw [builtTemplate_policyResources]
    simp

/-- C9 witness at c9Vars (linked role and security group both present):
fixed ids with at most one resource of each kind. -/
theorem c9_fixed_identifiers_witness :
    (∀ r ∈ c9Template.Resources, Resource.title r = Resource.kindTitle r) ∧
    c9Template.securityGroupResources.length ≤ 1 ∧
    c9Template.linkedRoleResources.length ≤ 1 ∧
    c9Template.esDomainResources.length ≤ 1 ∧
    c9Template.dnsRecordResources.length ≤ 1 ∧
    c9Template.policyResources.length ≤ 1 :=
  c9_fixed_identifiers c9Vars c9Template rfl

/-- C10: with an empty EncryptionAtRestKeyId the encryption error is
never raised, any produced domain resource has no EncryptionAtRestOptions
key, whatever the version string, and the build succeeds whenever the
subnet validation does not bite. -/
theorem c10_empty_key_no_encryption (v : Variables) (hk : v.EncryptionAtRestKeyId = "") :
    create_template v ≠ Except.error encErrorMsg ∧
    (∀ t, create_template v = Except.ok t → ∀ p ∈ t.esDomainParamsList,
      p.EncryptionAtRestOptions = none) ∧
    (¬(v.Subnets ≠ "" ∧ v.SecurityGroups = [] ∧ v.VpcId = "") →
      ∃ t, create_template v = Except.ok t) := by
  refine ⟨?_, ?_, ?_⟩
  · intro h
    rw [create_template_error_iff] at h
    rcases h with ⟨hne, _, _⟩ | ⟨_, _, _, _, hmsg⟩
    · exact hne hk
    · exact absurd hmsg (by decide)
  · intro t ht p hp
    rw [create_template_ok_iff] at ht
    rw [ht.2.2, builtTemplate_esDomainParamsList] at hp
    simp only [List.mem_singleton] at hp
    subst hp
    rw [finalParams_eq]
    simp [hk]
  · intro hns
    refine ⟨builtTemplate v (finalParams v), ?_⟩
    rw [create_template_ok_iff]
    exact ⟨fun h => h.1 hk, hns, rfl⟩

/-- C10 witness at c10Vars: version "1.5" is lexically far below "5.1"
yet with no key the build succeeds and carries no encryption options. -/
theorem c10_empty_key_no_encryption_witness :
    create_template c10Vars ≠ Except.error encErrorMsg ∧
    (∀ t, create_template c10Vars = Except.ok t → ∀ p ∈ t.esDomainParamsList,
      p.EncryptionAtRestOptions = none) ∧
    (¬(c10Vars.Subnets ≠ "" ∧ c10Vars.SecurityGroups = [] ∧ c10Vars.VpcId = "") →
      ∃ t, create_template c10Vars = Except.ok t) :=
  c10_empty_key_no_encryption c10Vars rfl

end ElasticsearchBlueprint
